import Mathlib

/-!
Verification of the GPU presentation-context core (src/vulkan.rs) against its
natural-language specification.  The Rust code is shallowly embedded: pure
negotiation logic becomes Lean functions, driver calls become explicit
environment records of driver responses, machine integers (u32) become Nat
with explicit wrap-around where overflow can occur, fallible paths return
Except, and Rust panics become an explicit constructor of an outcome type.
-/

deriving instance DecidableEq for Except

namespace Vulkan

/-- Largest u32 value, the Vulkan sentinel for an undefined surface extent. -/
def u32Max : Nat := 4294967295

/-- Number of u32 values; u32 arithmetic wraps modulo this. -/
def two32 : Nat := 4294967296

/-- Structured reasons for the Rust panics reachable from the embedded code.
Each constructor corresponds to one panic site in src/vulkan.rs, carrying the
dynamic data interpolated into the panic message. -/
inductive PanicReason where
  /-- vulkan.rs line 106: panic when a requested validation layer is not in
  the enumerated set, naming that layer. -/
  | layerUnavailable (name : String)
  /-- vulkan.rs line 366: panic when the preferred surface format is absent. -/
  | unsupportedSurfaceFormat
  /-- The assertion inside Rust Ord::clamp: panics when min exceeds max. -/
  | clampMinGreaterThanMax
  /-- vulkan.rs line 51: the .expect call in Context::recreate_swapchain. -/
  | swapchainRecreationError
  deriving DecidableEq, Repr

/-- Outcome of running code that may panic (abort the process). -/
inductive PanicOr (α : Type) where
  | panicked (reason : PanicReason)
  | ret (value : α)
  deriving DecidableEq, Repr

/-- Errors propagated with the Rust question-mark operator: driver calls that
return an error code, boxed into the Box-dyn-Error result. -/
inductive DriverErr where
  | vkError (code : Nat)
  deriving DecidableEq, Repr

/-- vk::Extent2D: a width and height in pixels (u32 each). -/
structure Extent2D where
  width : Nat
  height : Nat
  deriving DecidableEq, Repr

/-- vk::Format, restricted to what the code inspects. -/
inductive VkFormat where
  | b8g8r8a8Srgb
  | otherFormat (code : Nat)
  deriving DecidableEq, Repr

/-- vk::ColorSpaceKHR, restricted to what the code inspects. -/
inductive ColorSpace where
  | srgbNonlinear
  | otherSpace (code : Nat)
  deriving DecidableEq, Repr

/-- vk::SurfaceFormatKHR: a (format, color space) pair. -/
structure SurfaceFormat where
  format : VkFormat
  colorSpace : ColorSpace
  deriving DecidableEq, Repr

/-- vk::PresentModeKHR, restricted to what the code inspects. -/
inductive PresentMode where
  | immediate
  | mailbox
  | fifo
  | fifoRelaxed
  | otherMode (code : Nat)
  deriving DecidableEq, Repr

/-- vk::SharingMode. -/
inductive SharingMode where
  | exclusive
  | concurrent
  deriving DecidableEq, Repr

/-- vk::SurfaceCapabilitiesKHR, restricted to the fields the code reads. -/
structure SurfaceCapabilities where
  minImageCount : Nat
  maxImageCount : Nat
  currentExtent : Extent2D
  minImageExtent : Extent2D
  maxImageExtent : Extent2D
  currentTransform : Nat
  deriving DecidableEq, Repr

/-- Rust Ord::clamp on u32 (vulkan.rs lines 385-392 call it): asserts that
the lower bound does not exceed the upper bound (panicking otherwise), then
returns the value moved into the interval. -/
def rustClamp (v lo hi : Nat) : PanicOr Nat :=
  if lo ≤ hi then
    PanicOr.ret (if v < lo then lo else if v > hi then hi else v)
  else
    PanicOr.panicked PanicReason.clampMinGreaterThanMax

/-- The else branch of the extent choice (vulkan.rs lines 380-393): the
window inner size with each dimension clamped to the surface capability
range for that dimension. -/
def clampedWindowExtent (caps : SurfaceCapabilities) (size : Extent2D) : PanicOr Extent2D :=
  match rustClamp size.width caps.minImageExtent.width caps.maxImageExtent.width with
  | PanicOr.panicked r => PanicOr.panicked r
  | PanicOr.ret w =>
    match rustClamp size.height caps.minImageExtent.height caps.maxImageExtent.height with
    | PanicOr.panicked r => PanicOr.panicked r
    | PanicOr.ret h => PanicOr.ret { width := w, height := h }

/-- Extent negotiation (vulkan.rs lines 377-394): if the width of the
reported current extent differs from u32::MAX, the current extent is used
verbatim; otherwise the window size is clamped per dimension.  The source
condition reads current_extent.width only; the height is never examined. -/
def chooseExtent (caps : SurfaceCapabilities) (size : Extent2D) : PanicOr Extent2D :=
  if caps.currentExtent.width ≠ u32Max then
    PanicOr.ret caps.currentExtent
  else
    clampedWindowExtent caps size

/-- Image-count negotiation (vulkan.rs lines 396-402):
(min_image_count + 1).min(if max_image_count > 0 then max_image_count else
u32::MAX).  The u32 addition wraps modulo 2^32. -/
def chooseImageCount (caps : SurfaceCapabilities) : Nat :=
  Nat.min ((caps.minImageCount + 1) % two32)
    (if caps.maxImageCount > 0 then caps.maxImageCount else u32Max)

/-- Sharing-mode selection (vulkan.rs lines 409-420): exclusive with no
listed families when the graphics and present family indices coincide,
concurrent listing both otherwise. -/
def sharingSelect (graphicsIdx presentIdx : Nat) : SharingMode × List Nat :=
  if graphicsIdx = presentIdx then
    (SharingMode.exclusive, [])
  else
    (SharingMode.concurrent, [graphicsIdx, presentIdx])

/-- vk::SwapchainCreateInfoKHR, restricted to the fields the code sets
(vulkan.rs lines 422-443). -/
structure SwapchainCreateInfo where
  minImageCount : Nat
  imageFormat : VkFormat
  imageColorSpace : ColorSpace
  imageExtent : Extent2D
  imageArrayLayers : Nat
  imageSharingMode : SharingMode
  queueFamilyIndices : List Nat
  preTransform : Nat
  presentMode : PresentMode
  clipped : Bool
  oldSwapchain : Option Nat
  deriving DecidableEq, Repr

/-- Assembly of the swapchain create info (vulkan.rs lines 422-443): the
builder sets the scalar fields, then sets queue_family_indices only when the
sharing mode is concurrent, and sets old_swapchain only when a previous
handle was passed in (the Option field carries that directly). -/
def buildSwapchainCreateInfo (imageCount : Nat) (format : SurfaceFormat)
    (extent : Extent2D) (sharing : SharingMode × List Nat)
    (preTransform : Nat) (presentMode : PresentMode)
    (oldSwapchain : Option Nat) : SwapchainCreateInfo :=
  { minImageCount := imageCount
    imageFormat := format.format
    imageColorSpace := format.colorSpace
    imageExtent := extent
    imageArrayLayers := 1
    imageSharingMode := sharing.1
    queueFamilyIndices := if sharing.1 = SharingMode.concurrent then sharing.2 else []
    preTransform := preTransform
    presentMode := presentMode
    clipped := true
    oldSwapchain := oldSwapchain }

/-! ## Device selection (Device::new, vulkan.rs lines 197-306) -/

/-- One entry of get_physical_device_queue_family_properties together with
the surface-support query for the same index: graphics is whether the queue
flags contain GRAPHICS (line 219); present is the result of
get_physical_device_surface_support for this family, with a failed query
collapsed to false by unwrap_or(false) (lines 231-240). -/
structure QueueFamilyInfo where
  graphics : Bool
  present : Bool
  deriving DecidableEq, Repr

/-- A physical device as the selection loop observes it: its queue families
in index order. -/
structure PhysicalDevice where
  families : List QueueFamilyInfo
  deriving DecidableEq, Repr

/-- iter().enumerate().find_map over the queue families: the first index at
which the predicate holds (vulkan.rs lines 214-246 use this shape twice). -/
def firstFamilyIdx (p : QueueFamilyInfo → Bool) : List QueueFamilyInfo → Nat → Option Nat
  | [], _ => none
  | f :: rest, i => if p f then some i else firstFamilyIdx p rest (i + 1)

/-- First queue family whose flags contain GRAPHICS (lines 214-224). -/
def findGraphicsFamily (fams : List QueueFamilyInfo) : Option Nat :=
  firstFamilyIdx (fun f => f.graphics) fams 0

/-- First queue family passing the surface presentation-support query
(lines 226-246). -/
def findPresentFamily (fams : List QueueFamilyInfo) : Option Nat :=
  firstFamilyIdx (fun f => f.present) fams 0

/-- The two failure modes of the device-selection stage: the early return at
lines 200-202 when enumeration yields no devices at all, and the ok_or at
line 259 when no enumerated device has both required families. -/
inductive DeviceError where
  | noPhysicalDevices
  | noSuitableDevice
  deriving DecidableEq, Repr

/-- The outcome of selection: the position of the chosen device in
enumeration order and its chosen graphics and present family indices. -/
structure DeviceSelection where
  deviceIdx : Nat
  graphicsQueueFamilyIdx : Nat
  presentQueueFamilyIdx : Nat
  deriving DecidableEq, Repr

/-- The selection loop (vulkan.rs lines 205-256): walk the devices in
enumeration order and stop at the first one for which both family searches
succeed. -/
def selectLoop : List PhysicalDevice → Nat → Option DeviceSelection
  | [], _ => none
  | d :: rest, i =>
    match findGraphicsFamily d.families, findPresentFamily d.families with
    | some g, some p =>
      some { deviceIdx := i, graphicsQueueFamilyIdx := g, presentQueueFamilyIdx := p }
    | _, _ => selectLoop rest (i + 1)

/-- The device-selection stage of Device::new (vulkan.rs lines 199-259):
empty enumeration fails first with its own error; otherwise the loop result
is converted with ok_or into the no-suitable-device error. -/
def selectDevice (devices : List PhysicalDevice) : Except DeviceError DeviceSelection :=
  if devices.isEmpty then Except.error DeviceError.noPhysicalDevices
  else
    match selectLoop devices 0 with
    | some sel => Except.ok sel
    | none => Except.error DeviceError.noSuitableDevice

/-- Queue-family deduplication for the logical-device request (vulkan.rs
lines 265-268): the graphics family, then the present family only when it
differs. -/
def uniqueQueueFamilies (graphicsIdx presentIdx : Nat) : List Nat :=
  if presentIdx ≠ graphicsIdx then [graphicsIdx, presentIdx] else [graphicsIdx]

/-! ## Instance creation and the layer check (Instance::new, vulkan.rs
lines 72-131) -/

/-- The compile-time platform choosing the cfg-conditional extensions. -/
inductive Platform where
  | windows
  | linuxOS
  | macos
  deriving DecidableEq, Repr

/-- INSTANCE_LAYERS (vulkan.rs lines 7-11): the single requested validation
layer. -/
def instanceLayers : List String := ["VK_LAYER_KHRONOS_validation"]

/-- INSTANCE_EXTENSIONS (vulkan.rs line 12): the fixed base set, empty. -/
def instanceBaseExtensions : List String := []

/-- The cfg-conditional platform surface extensions pushed at vulkan.rs
lines 86-95. -/
def platformSurfaceExtensionNames : Platform → List String
  | Platform.windows => ["VK_KHR_win32_surface"]
  | Platform.linuxOS => ["VK_KHR_wayland_surface", "VK_KHR_xlib_surface"]
  | Platform.macos => ["VK_EXT_metal_surface", "VK_KHR_portability_enumeration"]

/-- The extension list built at vulkan.rs lines 77-95: base set, then the
extensions the windowing collaborator requires, then the platform set. -/
def instanceExtensionNames (windowRequired : List String) (p : Platform) : List String :=
  instanceBaseExtensions ++ windowRequired ++ platformSurfaceExtensionNames p

/-- The layer-verification loop (vulkan.rs lines 98-108): for each requested
layer in order, if no enumerated layer matches it, panic naming that layer;
otherwise continue. -/
def checkLayers (requested available : List String) : PanicOr Unit :=
  match requested with
  | [] => PanicOr.ret ()
  | l :: rest =>
    if available.any (fun prop => decide (prop = l)) then checkLayers rest available
    else PanicOr.panicked (PanicReason.layerUnavailable l)

/-- Driver responses consumed by Instance::new: whether the loader entry
loads, what enumerate_instance_layer_properties returns, and what
create_instance returns for a given extension list. -/
structure InstanceEnv where
  entryLoad : Except DriverErr Unit
  availableLayers : Except DriverErr (List String)
  createInstance : List String → Except DriverErr Nat

/-- Instance::new (vulkan.rs lines 73-130): load the entry, build the
extension list, verify the requested layers (panicking on a missing one),
then create the instance.  Driver failures propagate with the question-mark
operator as errors; a missing layer aborts by panic before any instance
handle exists. -/
def instanceNew (env : InstanceEnv) (windowRequired : List String) (p : Platform) :
    PanicOr (Except DriverErr Nat) :=
  match env.entryLoad with
  | Except.error e => PanicOr.ret (Except.error e)
  | Except.ok _ =>
    match env.availableLayers with
    | Except.error e => PanicOr.ret (Except.error e)
    | Except.ok available =>
      match checkLayers instanceLayers available with
      | PanicOr.panicked r => PanicOr.panicked r
      | PanicOr.ret _ => PanicOr.ret (env.createInstance (instanceExtensionNames windowRequired p))

/-! ## Teardown order (the Drop impls, vulkan.rs lines 64-70, 141-147,
188-195, 318-327, and the Context struct, lines 17-22) -/

/-- The destructive driver calls the Drop impls issue. -/
inductive TeardownEvent where
  | destroyInstance
  | destroySurface
  | deviceWaitIdle
  | destroyDevice
  | destroyImageView (view : Nat)
  | destroySwapchain
  deriving DecidableEq, Repr

/-- Drop for Instance (vulkan.rs lines 64-70). -/
def instanceDropEvents : List TeardownEvent := [TeardownEvent.destroyInstance]

/-- Drop for Surface (vulkan.rs lines 141-147). -/
def surfaceDropEvents : List TeardownEvent := [TeardownEvent.destroySurface]

/-- Drop for Device (vulkan.rs lines 188-195): wait for idle, then destroy. -/
def deviceDropEvents : List TeardownEvent :=
  [TeardownEvent.deviceWaitIdle, TeardownEvent.destroyDevice]

/-- Drop for Swapchain (vulkan.rs lines 318-327): destroy each image view in
order, then the swapchain handle. -/
def swapchainDropEvents (views : List Nat) : List TeardownEvent :=
  views.map TeardownEvent.destroyImageView ++ [TeardownEvent.destroySwapchain]

/-- Teardown of a Context value.  Context (vulkan.rs lines 17-22) declares
its fields in the order instance, surface, device, swapchain and has no Drop
impl of its own, so Rust drops the fields in declaration order (the Rust
reference, Destructors: record fields are dropped first to last in
declaration order).  Each field drop runs that component Drop impl. -/
def contextDropEvents (views : List Nat) : List TeardownEvent :=
  instanceDropEvents ++ surfaceDropEvents ++ deviceDropEvents ++ swapchainDropEvents views

/-- Modelled from the spec: the teardown order the spec requires of
destroy() — swapchain, then device, then surface, then instance. -/
def specTeardownEvents (views : List Nat) : List TeardownEvent :=
  swapchainDropEvents views ++ deviceDropEvents ++ surfaceDropEvents ++ instanceDropEvents

/-! ## Swapchain creation (Swapchain::new, vulkan.rs lines 329-491) -/

/-- The Swapchain struct fields the claims observe (vulkan.rs lines
308-316): the swapchain handle, the driver-owned image handles, the owned
image-view handles, the chosen format and the chosen extent.  The loader and
cloned device handles are capabilities for later destroy calls and carry no
negotiated data. -/
structure SwapchainModel where
  swapchain : Nat
  images : List Nat
  imageViews : List Nat
  format : SurfaceFormat
  extent : Extent2D
  deriving DecidableEq, Repr

/-- Driver responses consumed by Swapchain::new, one field per driver call
in source order: the three surface queries, the window inner size, the
swapchain-creation response as a function of the submitted create info, the
image query, and the per-image view-creation response keyed by image
handle. -/
structure SwapEnv where
  surfaceCapabilities : Except DriverErr SurfaceCapabilities
  surfaceFormats : Except DriverErr (List SurfaceFormat)
  presentModes : Except DriverErr (List PresentMode)
  windowInnerSize : Extent2D
  createSwapchainResult : SwapchainCreateInfo → Except DriverErr Nat
  swapchainImagesResult : Except DriverErr (List Nat)
  createImageViewResult : Nat → Except DriverErr Nat

/-- The view-creation calls one run of Swapchain::new makes (vulkan.rs
lines 450-473) and the destroy calls it makes on views.  The source
contains no destroy_image_view call anywhere in Swapchain::new, on the
success path or on any error path, so viewsDestroyed is empty on every
path; it is recorded so that the rollback property can be stated. -/
structure SwapTrace where
  viewsCreated : List Nat
  viewsDestroyed : List Nat
  deriving DecidableEq, Repr

/-- images.iter().map(create_image_view).collect::<Result<Vec>>() (vulkan.rs
lines 450-473): views are created left to right and collection stops at the
first error, discarding (not destroying) the views already created.  The
first component records every view actually created during the traversal;
the second is the collect result. -/
def collectViews (create : Nat → Except DriverErr Nat) :
    List Nat → List Nat × Except DriverErr (List Nat)
  | [] => ([], Except.ok [])
  | img :: rest =>
    match create img with
    | Except.error e => ([], Except.error e)
    | Except.ok v =>
      match collectViews create rest with
      | (created, Except.error e) => (v :: created, Except.error e)
      | (created, Except.ok vs) => (v :: created, Except.ok (v :: vs))

/-- The tail of Swapchain::new after negotiation (vulkan.rs lines 445-491):
submit the create info, query the images, create one view per image; the
first view failure propagates without destroying the earlier views. -/
def swapchainFinish (env : SwapEnv) (format : SurfaceFormat) (extent : Extent2D)
    (info : SwapchainCreateInfo) : SwapTrace × Except DriverErr SwapchainModel :=
  match env.createSwapchainResult info with
  | Except.error e => (⟨[], []⟩, Except.error e)
  | Except.ok swapchain =>
    match env.swapchainImagesResult with
    | Except.error e => (⟨[], []⟩, Except.error e)
    | Except.ok images =>
      match collectViews env.createImageViewResult images with
      | (created, Except.error e) => (⟨created, []⟩, Except.error e)
      | (created, Except.ok views) =>
        (⟨created, []⟩,
          Except.ok { swapchain := swapchain, images := images, imageViews := views,
                      format := format, extent := extent })

/-- Swapchain::new (vulkan.rs lines 330-491).  In source order: query
capabilities, formats and present modes (each propagating driver errors);
pick the fixed preferred format, panicking when absent (line 366); pick
mailbox when offered else fifo (lines 369-374); choose the extent (lines
377-394, possibly panicking inside clamp); compute the image count (lines
396-402); select the sharing mode (lines 409-420); assemble the create info
(lines 422-443); then run the creation tail.  Returns the trace of view
calls alongside the result. -/
def swapchainNew (env : SwapEnv) (graphicsIdx presentIdx : Nat)
    (oldSwapchain : Option Nat) :
    PanicOr (SwapTrace × Except DriverErr SwapchainModel) :=
  match env.surfaceCapabilities with
  | Except.error e => PanicOr.ret (⟨[], []⟩, Except.error e)
  | Except.ok caps =>
  match env.surfaceFormats with
  | Except.error e => PanicOr.ret (⟨[], []⟩, Except.error e)
  | Except.ok formats =>
  match env.presentModes with
  | Except.error e => PanicOr.ret (⟨[], []⟩, Except.error e)
  | Except.ok modes =>
  match formats.find? (fun f =>
      decide (f.format = VkFormat.b8g8r8a8Srgb ∧ f.colorSpace = ColorSpace.srgbNonlinear)) with
  | none => PanicOr.panicked PanicReason.unsupportedSurfaceFormat
  | some format =>
  let presentMode :=
    match modes.find? (fun m => decide (m = PresentMode.mailbox)) with
    | some m => m
    | none => PresentMode.fifo
  match chooseExtent caps env.windowInnerSize with
  | PanicOr.panicked r => PanicOr.panicked r
  | PanicOr.ret extent =>
  let imageCount := chooseImageCount caps
  let sharing := sharingSelect graphicsIdx presentIdx
  let info := buildSwapchainCreateInfo imageCount format extent sharing
      caps.currentTransform presentMode oldSwapchain
  PanicOr.ret (swapchainFinish env format extent info)

/-- The part of the Context state recreate_swapchain touches: the currently
installed swapchain (vulkan.rs line 21). -/
structure ContextModel where
  swapchain : SwapchainModel
  deriving DecidableEq, Repr

/-- Context::recreate_swapchain (vulkan.rs lines 40-56): build a new
swapchain passing the current handle as the recreation hint; the .expect at
line 51 turns any error from Swapchain::new into a panic, so the declared
Result return channel only ever carries Ok.  On success the assignment at
line 53 installs the new swapchain (dropping the old value) and Ok(()) is
returned. -/
def recreateSwapchain (env : SwapEnv) (graphicsIdx presentIdx : Nat)
    (ctx : ContextModel) : PanicOr (ContextModel × Except DriverErr Unit) :=
  match swapchainNew env graphicsIdx presentIdx (some ctx.swapchain.swapchain) with
  | PanicOr.panicked r => PanicOr.panicked r
  | PanicOr.ret (_, Except.error _) => PanicOr.panicked PanicReason.swapchainRecreationError
  | PanicOr.ret (_, Except.ok s) => PanicOr.ret ({ swapchain := s }, Except.ok ())

/-! ## Handle lifecycle across recreations (Context::recreate_swapchain,
vulkan.rs lines 40-56, and Drop for Swapchain, lines 318-327)

Driver handles are modelled as consecutive naturals handed out by a fresh
counter: create_swapchain returns the next handle, then each
create_image_view call returns the following ones, so every successful
creation allocates a contiguous fresh block.  What the program does with
the handles — which it destroys, which stay live — is the embedded code. -/

/-- The owned handles of one Swapchain value: its swapchain handle and its
image-view handles. -/
structure SwapchainHandles where
  chain : Nat
  views : List Nat
  deriving DecidableEq, Repr

/-- State of the handle ledger: the fresh counter (every handle below it has
been allocated), the currently installed swapchain, and every destroy call
issued so far, in order. -/
structure LifecycleState where
  fresh : Nat
  current : SwapchainHandles
  destroyed : List Nat
  deriving DecidableEq, Repr

/-- One successful Swapchain::new allocates the swapchain handle first
(create_swapchain, line 446), then one view handle per image (lines
450-473). -/
def allocSwapchain (fresh k : Nat) : SwapchainHandles :=
  { chain := fresh, views := List.range' (fresh + 1) k }

/-- After Context::new (vulkan.rs lines 25-38) with k0 swapchain images:
one swapchain allocated, nothing destroyed. -/
def initLifecycle (k0 : Nat) : LifecycleState :=
  { fresh := k0 + 1, current := allocSwapchain 0 k0, destroyed := [] }

/-- One successful Context::recreate_swapchain with k images in the new
chain: Swapchain::new allocates the new block; the assignment
self.swapchain = new_swapchain (line 53) drops the previous Swapchain
value, whose Drop impl (lines 318-327) destroys each of its image views in
order and then its swapchain handle. -/
def recreateStep (st : LifecycleState) (k : Nat) : LifecycleState :=
  { fresh := st.fresh + (k + 1)
    current := allocSwapchain st.fresh k
    destroyed := st.destroyed ++ (st.current.views ++ [st.current.chain]) }

/-- The ledger after Context::new with k0 images followed by one successful
recreation per entry of ks (the entry is the image count of the new chain). -/
def runRecreations (k0 : Nat) (ks : List Nat) : LifecycleState :=
  ks.foldl recreateStep (initLifecycle k0)

/-- The handles still live in a ledger state: the installed swapchain
handle and its views. -/
def liveHandles (st : LifecycleState) : List Nat :=
  st.current.chain :: st.current.views

/-! ## Concrete driver environments for the closed statements -/

/-- A capability record with a defined (non-sentinel) current extent. -/
def capsDefined : SurfaceCapabilities :=
  { minImageCount := 2, maxImageCount := 0, currentExtent := ⟨800, 600⟩,
    minImageExtent := ⟨1, 1⟩, maxImageExtent := ⟨4096, 4096⟩, currentTransform := 0 }

/-- The fixed preferred surface format the code searches for (vulkan.rs
lines 362-363). -/
def preferredFormat : SurfaceFormat :=
  { format := VkFormat.b8g8r8a8Srgb, colorSpace := ColorSpace.srgbNonlinear }

/-- A driver environment whose create_swapchain call fails; everything
before it succeeds. -/
def envCreateFails : SwapEnv :=
  { surfaceCapabilities := Except.ok capsDefined
    surfaceFormats := Except.ok [preferredFormat]
    presentModes := Except.ok [PresentMode.fifo]
    windowInnerSize := ⟨800, 600⟩
    createSwapchainResult := fun _ => Except.error (DriverErr.vkError 1)
    swapchainImagesResult := Except.ok []
    createImageViewResult := fun _ => Except.error (DriverErr.vkError 0) }

/-- A driver environment that yields two swapchain images, where view
creation succeeds for image 0 (view handle 10) and fails for image 1. -/
def envViewFails : SwapEnv :=
  { surfaceCapabilities := Except.ok capsDefined
    surfaceFormats := Except.ok [preferredFormat]
    presentModes := Except.ok []
    windowInnerSize := ⟨800, 600⟩
    createSwapchainResult := fun _ => Except.ok 100
    swapchainImagesResult := Except.ok [0, 1]
    createImageViewResult := fun img => if img = 0 then Except.ok 10
      else Except.error (DriverErr.vkError 7) }

/-- A context holding an already-installed swapchain. -/
def ctxReady : ContextModel :=
  { swapchain := { swapchain := 5, images := [0], imageViews := [10],
                   format := preferredFormat, extent := ⟨800, 600⟩ } }

/-! ## C1 -/

/-- Claim C1: dropping a Context is claimed to tear down swapchain, then
device, then surface, then instance.  The code violates this: Context has
no Drop impl and Rust drops struct fields in declaration order, which in
vulkan.rs lines 17-22 is instance, surface, device, swapchain — the exact
creation order, not its reverse.  The theorem evaluates the teardown event
trace at a concrete teardown (a swapchain with no views) and shows the
actual order, and shows the trace differs from the claimed order for every
view list. -/
theorem c1_teardown_order_bug :
    contextDropEvents [] =
      [TeardownEvent.destroyInstance, TeardownEvent.destroySurface,
       TeardownEvent.deviceWaitIdle, TeardownEvent.destroyDevice,
       TeardownEvent.destroySwapchain]
    ∧ (∀ views, contextDropEvents views ≠ specTeardownEvents views) := by
  refine ⟨by decide, ?_⟩
  intro views h
  cases views with
  | nil => exact absurd h (by decide)
  | cons v vs =>
    simp [contextDropEvents, specTeardownEvents, instanceDropEvents,
      surfaceDropEvents, deviceDropEvents, swapchainDropEvents] at h

/-! ## C2 -/

/-- Claim C2: a failed recreateSwapchain is claimed to leave the context in
Ready with the old swapchain and to return a recoverable error.  The code
violates this: Context::recreate_swapchain calls
Swapchain::new(...).expect("Swapchain Recreation Error") (vulkan.rs lines
44-51), so any failure panics and aborts the process instead of returning
through the declared Result channel.  The theorem evaluates the embedded
code at a failing input (the driver rejects the create-swapchain call) and
shows the outcome is the panic, never a returned value of any kind. -/
theorem c2_recreate_panics_on_failure :
    recreateSwapchain envCreateFails 0 0 ctxReady
      = PanicOr.panicked PanicReason.swapchainRecreationError
    ∧ ∀ r, recreateSwapchain envCreateFails 0 0 ctxReady ≠ PanicOr.ret r := by
  have h1 : recreateSwapchain envCreateFails 0 0 ctxReady
      = PanicOr.panicked PanicReason.swapchainRecreationError := by decide
  exact ⟨h1, fun r hr => PanicOr.noConfusion (h1 ▸ hr)⟩

/-! ## C4 -/

/-- Counterexample to claim C4 as stated: with two swapchain images where
the second view creation fails, Swapchain::new returns the error, having
created view 10 for the first image, and destroys nothing — so it is false
that every already-created view is destroyed before the error is returned. -/
theorem c4_rollback_counterexample :
    swapchainNew envViewFails 0 0 none
      = PanicOr.ret ({ viewsCreated := [10], viewsDestroyed := [] },
          Except.error (DriverErr.vkError 7))
    ∧ ¬ (∀ v, v ∈ ([10] : List Nat) → v ∈ ([] : List Nat)) := by
  decide

/-! ## C3 -/

/-- The ledger invariant: the destroy calls issued so far together with the
currently live handles are a permutation of every handle the driver has
handed out — each allocated handle is accounted for exactly once. -/
def LedgerInv (st : LifecycleState) : Prop :=
  (st.destroyed ++ liveHandles st).Perm (List.range st.fresh)

theorem ledgerInv_init (k0 : Nat) : LedgerInv (initLifecycle k0) := by
  unfold LedgerInv initLifecycle liveHandles allocSwapchain
  simp only [List.nil_append]
  have h1 : (0 : Nat) :: List.range' 1 k0 = List.range' 0 (k0 + 1) :=
    (List.range'_succ 0 k0 1).symm
  rw [List.range_eq_range', h1]

theorem ledgerInv_step (st : LifecycleState) (k : Nat) (h : LedgerInv st) :
    LedgerInv (recreateStep st k) := by
  unfold LedgerInv recreateStep liveHandles allocSwapchain at *
  have hblock : (st.fresh : Nat) :: List.range' (st.fresh + 1) k
      = List.range' st.fresh (k + 1) := (List.range'_succ st.fresh k 1).symm
  have hperm1 : (st.current.views ++ [st.current.chain]).Perm
      (st.current.chain :: st.current.views) :=
    List.perm_append_singleton st.current.chain st.current.views
  have h2 : ((st.destroyed ++ (st.current.views ++ [st.current.chain]))
        ++ (st.fresh :: List.range' (st.fresh + 1) k)).Perm
      ((st.destroyed ++ (st.current.chain :: st.current.views))
        ++ (st.fresh :: List.range' (st.fresh + 1) k)) :=
    (hperm1.append_left st.destroyed).append_right _
  have h3 : ((st.destroyed ++ (st.current.chain :: st.current.views))
        ++ (st.fresh :: List.range' (st.fresh + 1) k)).Perm
      (List.range st.fresh ++ (st.fresh :: List.range' (st.fresh + 1) k)) :=
    h.append_right _
  have h4 : List.range st.fresh ++ (st.fresh :: List.range' (st.fresh + 1) k)
      = List.range (st.fresh + (k + 1)) := by
    rw [hblock, List.range_eq_range', List.range_eq_range']
    have h5 := List.range'_append 0 st.fresh (k + 1) 1
    simp only [Nat.zero_add, Nat.one_mul] at h5
    rw [Nat.add_comm (k + 1) st.fresh] at h5
    exact h5
  exact h2.trans (h4 ▸ h3)

theorem ledgerInv_fold (ks : List Nat) :
    ∀ (st : LifecycleState), LedgerInv st → LedgerInv (ks.foldl recreateStep st) := by
  induction ks with
  | nil => intro st h; exact h
  | cons k rest ih =>
    intro st h
    exact ih (recreateStep st k) (ledgerInv_step st k h)

/-- Claim C3: after any number of consecutive successful recreations,
exactly one swapchain (the installed one, liveHandles) remains live, and
every superseded handle has been destroyed exactly once: the destroy trace
plus the live handles form a permutation of all allocated handles (each
exactly once), the destroy trace has no duplicates (nothing destroyed
twice), and no live handle was ever destroyed. -/
theorem c3_recreation_no_leak :
    ∀ (k0 : Nat) (ks : List Nat),
      ((runRecreations k0 ks).destroyed ++ liveHandles (runRecreations k0 ks)).Perm
        (List.range (runRecreations k0 ks).fresh)
      ∧ (runRecreations k0 ks).destroyed.Nodup
      ∧ (runRecreations k0 ks).destroyed.Disjoint (liveHandles (runRecreations k0 ks)) := by
  intro k0 ks
  have hperm : LedgerInv (runRecreations k0 ks) :=
    ledgerInv_fold ks (initLifecycle k0) (ledgerInv_init k0)
  have hnodup : ((runRecreations k0 ks).destroyed
      ++ liveHandles (runRecreations k0 ks)).Nodup :=
    hperm.nodup_iff.2 (List.nodup_range _)
  exact ⟨hperm, hnodup.of_append_left, List.disjoint_of_nodup_append hnodup⟩

/-- Witness for C3 at a concrete run: initial swapchain with one image,
then one successful recreation with two images. -/
theorem c3_recreation_no_leak_witness :
    ((runRecreations 1 [2]).destroyed ++ liveHandles (runRecreations 1 [2])).Perm
      (List.range (runRecreations 1 [2]).fresh)
    ∧ (runRecreations 1 [2]).destroyed.Nodup
    ∧ (runRecreations 1 [2]).destroyed.Disjoint (liveHandles (runRecreations 1 [2])) :=
  c3_recreation_no_leak 1 [2]

/-! ## C5 and C10: extent negotiation -/

/-- Modelled from the spec: the mathematical clamp of a value into the
interval from lo to hi. -/
def clampSpecNat (v lo hi : Nat) : Nat := Nat.max lo (Nat.min v hi)

/-- Modelled from the spec: the current extent is defined when it is not
the undefined sentinel (both components u32::MAX, the Vulkan special
value). -/
def definedCurrentExtent (caps : SurfaceCapabilities) : Prop :=
  caps.currentExtent ≠ { width := u32Max, height := u32Max }

instance (caps : SurfaceCapabilities) : Decidable (definedCurrentExtent caps) :=
  inferInstanceAs (Decidable (caps.currentExtent ≠ { width := u32Max, height := u32Max }))

/-- The code clamp agrees with the mathematical clamp whenever the bounds
are ordered (the assertion inside Rust clamp passes). -/
theorem rustClamp_of_le (v lo hi : Nat) (h : lo ≤ hi) :
    rustClamp v lo hi = PanicOr.ret (clampSpecNat v lo hi) := by
  unfold rustClamp clampSpecNat
  rw [if_pos h]
  congr 1
  simp only [Nat.min_def, Nat.max_def]
  repeat' split
  all_goals omega

/-- Claim C5: for every capability record whose sentinel marking is
consistent (per the Vulkan contract the undefined sentinel sets both
components, so width is the sentinel exactly when height is) and every
window size: a defined current extent is used verbatim, ignoring the
window size; an undefined one yields the window size clamped per dimension
into the min and max image extents, whenever those bounds are ordered (as
surface capabilities guarantee). -/
theorem c5_extent_negotiation :
    ∀ (caps : SurfaceCapabilities) (size : Extent2D),
      (caps.currentExtent.width = u32Max ↔ caps.currentExtent.height = u32Max) →
      (definedCurrentExtent caps →
        chooseExtent caps size = PanicOr.ret caps.currentExtent)
      ∧ (¬ definedCurrentExtent caps →
          caps.minImageExtent.width ≤ caps.maxImageExtent.width →
          caps.minImageExtent.height ≤ caps.maxImageExtent.height →
          chooseExtent caps size = PanicOr.ret
            { width := clampSpecNat size.width caps.minImageExtent.width
                caps.maxImageExtent.width,
              height := clampSpecNat size.height caps.minImageExtent.height
                caps.maxImageExtent.height }) := by
  intro caps size hwf
  constructor
  · intro hdef
    have hw : caps.currentExtent.width ≠ u32Max := by
      intro he
      have heta : caps.currentExtent
          = Extent2D.mk caps.currentExtent.width caps.currentExtent.height := rfl
      exact hdef (by rw [heta, he, hwf.1 he])
    unfold chooseExtent
    rw [if_pos hw]
  · intro hndef hww hhh
    have hcur : caps.currentExtent = ({ width := u32Max, height := u32Max } : Extent2D) :=
      not_not.1 hndef
    have hw : caps.currentExtent.width = u32Max := by rw [hcur]
    unfold chooseExtent
    rw [if_neg (by simp [hw])]
    unfold clampedWindowExtent
    rw [rustClamp_of_le _ _ _ hww, rustClamp_of_le _ _ _ hhh]

/-- A capability record reporting the undefined current extent. -/
def capsSentinel : SurfaceCapabilities :=
  { minImageCount := 2, maxImageCount := 0, currentExtent := ⟨u32Max, u32Max⟩,
    minImageExtent := ⟨1, 1⟩, maxImageExtent := ⟨4096, 4096⟩, currentTransform := 0 }

/-- Witness for C5: an oversized window against the undefined-extent
record clamps to the capability maximum per dimension. -/
theorem c5_extent_negotiation_witness :
    chooseExtent capsSentinel ⟨5000, 3000⟩ = PanicOr.ret
      { width := clampSpecNat 5000 1 4096, height := clampSpecNat 3000 1 4096 } :=
  (c5_extent_negotiation capsSentinel ⟨5000, 3000⟩ (by decide)).2
    (by decide) (by decide) (by decide)

/-- Claim C10 (implicit): the verbatim branch of the extent choice is taken
exactly when the width of the reported current extent is not u32::MAX; the
height is never examined, so a record whose width is defined but whose
height is the sentinel value is still used verbatim, sentinel height
included. -/
theorem c10_width_only_sentinel :
    ∀ (caps : SurfaceCapabilities) (size : Extent2D),
      (caps.currentExtent.width ≠ u32Max →
        chooseExtent caps size = PanicOr.ret caps.currentExtent)
      ∧ (caps.currentExtent.width = u32Max →
        chooseExtent caps size = clampedWindowExtent caps size)
      ∧ (caps.currentExtent.width ≠ u32Max → caps.currentExtent.height = u32Max →
        chooseExtent caps size
          = PanicOr.ret { width := caps.currentExtent.width, height := u32Max }) := by
  intro caps size
  refine ⟨fun hw => ?_, fun hw => ?_, fun hw hh => ?_⟩
  · unfold chooseExtent
    rw [if_pos hw]
  · unfold chooseExtent
    rw [if_neg (by simp [hw])]
  · have heta : PanicOr.ret caps.currentExtent = PanicOr.ret
        (Extent2D.mk caps.currentExtent.width caps.currentExtent.height) := rfl
    unfold chooseExtent
    rw [if_pos hw, heta, hh]

/-- A capability record with a defined width but sentinel height. -/
def capsHalfSentinel : SurfaceCapabilities :=
  { minImageCount := 2, maxImageCount := 0, currentExtent := ⟨800, u32Max⟩,
    minImageExtent := ⟨1, 1⟩, maxImageExtent := ⟨4096, 4096⟩, currentTransform := 0 }

/-- Witness for C10: with width 800 and sentinel height, the reported
extent is used verbatim, sentinel height included, for any window size. -/
theorem c10_width_only_sentinel_witness :
    chooseExtent capsHalfSentinel ⟨1920, 1080⟩
      = PanicOr.ret { width := 800, height := u32Max } := by
  have h := (c10_width_only_sentinel capsHalfSentinel ⟨1920, 1080⟩).2.2 (by decide) rfl
  exact h

/-! ## C6: image count -/

/-- Modelled from the spec: clamp(min_image_count + 1, min_image_count,
max_image_count), with max_image_count = 0 meaning the upper side of the
clamp is skipped. -/
def specImageCount (minC maxC : Nat) : Nat :=
  if maxC = 0 then Nat.max minC (minC + 1) else Nat.max minC (Nat.min (minC + 1) maxC)

/-- A capability record carrying only the image-count bounds. -/
def c6Caps (minC maxC : Nat) : SurfaceCapabilities :=
  { minImageCount := minC, maxImageCount := maxC, currentExtent := ⟨0, 0⟩,
    minImageExtent := ⟨0, 0⟩, maxImageExtent := ⟨0, 0⟩, currentTransform := 0 }

/-- Claim C6: for every capability record in the u32 domain (the increment
does not overflow) that is well formed (max is zero, meaning unbounded, or
at least min, as Vulkan guarantees), the requested image count is the
spec clamp; and the three quoted instances evaluate as stated. -/
theorem c6_image_count_clamp :
    (∀ (caps : SurfaceCapabilities),
        caps.minImageCount + 1 < two32 →
        (caps.maxImageCount = 0 ∨ caps.minImageCount ≤ caps.maxImageCount) →
        chooseImageCount caps = specImageCount caps.minImageCount caps.maxImageCount)
    ∧ chooseImageCount (c6Caps 2 0) = 3
    ∧ chooseImageCount (c6Caps 2 2) = 2
    ∧ chooseImageCount (c6Caps 1 1) = 1 := by
  refine ⟨?_, by decide, by decide, by decide⟩
  intro caps hov hwf
  have hle : caps.minImageCount + 1 ≤ u32Max := by
    unfold two32 at hov
    unfold u32Max
    omega
  unfold chooseImageCount specImageCount
  rw [Nat.mod_eq_of_lt hov]
  by_cases h0 : caps.maxImageCount = 0
  · rw [if_pos h0, h0]
    simp only [Nat.lt_irrefl, if_false]
    simp only [Nat.min_def, Nat.max_def]
    repeat' split
    all_goals omega
  · have hpos : 0 < caps.maxImageCount := Nat.pos_of_ne_zero h0
    have hmle : caps.minImageCount ≤ caps.maxImageCount := hwf.resolve_left h0
    rw [if_neg h0, if_pos hpos]
    simp only [Nat.min_def, Nat.max_def]
    repeat' split
    all_goals omega

/-- Witness for C6 at min 5, max 7. -/
theorem c6_image_count_clamp_witness :
    chooseImageCount (c6Caps 5 7) = specImageCount 5 7 :=
  c6_image_count_clamp.1 (c6Caps 5 7) (by decide) (Or.inr (by decide))

/-! ## C8: sharing mode -/

/-- Claim C8: in the assembled create info, the sharing mode is concurrent
exactly when the graphics and present family indices differ, in which case
both indices are listed explicitly; when they coincide the mode is
exclusive and no family list is set. -/
theorem c8_sharing_mode_selection :
    ∀ (g p imageCount : Nat) (format : SurfaceFormat) (extent : Extent2D)
      (preTransform : Nat) (presentMode : PresentMode) (old : Option Nat),
      ((buildSwapchainCreateInfo imageCount format extent (sharingSelect g p)
          preTransform presentMode old).imageSharingMode = SharingMode.concurrent ↔ g ≠ p)
      ∧ (g ≠ p →
          (buildSwapchainCreateInfo imageCount format extent (sharingSelect g p)
            preTransform presentMode old).queueFamilyIndices = [g, p])
      ∧ (g = p →
          (buildSwapchainCreateInfo imageCount format extent (sharingSelect g p)
            preTransform presentMode old).imageSharingMode = SharingMode.exclusive
          ∧ (buildSwapchainCreateInfo imageCount format extent (sharingSelect g p)
              preTransform presentMode old).queueFamilyIndices = []) := by
  intro g p ic f e pt pm old
  by_cases h : g = p
  · subst h
    simp [sharingSelect, buildSwapchainCreateInfo]
  · simp [sharingSelect, buildSwapchainCreateInfo, h]

/-- Witness for C8 at distinct families 0 and 2 and at the shared family 1. -/
theorem c8_sharing_mode_selection_witness :
    (buildSwapchainCreateInfo 3 preferredFormat ⟨640, 480⟩ (sharingSelect 0 2) 0
      PresentMode.fifo none).queueFamilyIndices = [0, 2]
    ∧ (buildSwapchainCreateInfo 3 preferredFormat ⟨640, 480⟩ (sharingSelect 1 1) 0
      PresentMode.fifo none).imageSharingMode = SharingMode.exclusive :=
  ⟨(c8_sharing_mode_selection 0 2 3 preferredFormat ⟨640, 480⟩ 0
      PresentMode.fifo none).2.1 (by decide),
   ((c8_sharing_mode_selection 1 1 3 preferredFormat ⟨640, 480⟩ 0
      PresentMode.fifo none).2.2 rfl).1⟩

/-! ## C7: device selection -/

theorem selectLoop_none (devices : List PhysicalDevice) :
    ∀ i, (∀ d, d ∈ devices → findGraphicsFamily d.families = none
        ∨ findPresentFamily d.families = none) →
      selectLoop devices i = none := by
  induction devices with
  | nil => intro i _; rfl
  | cons d rest ih =>
    intro i h
    have hd := h d (List.mem_cons_self d rest)
    have hrest : ∀ d2, d2 ∈ rest → findGraphicsFamily d2.families = none
        ∨ findPresentFamily d2.families = none :=
      fun d2 hd2 => h d2 (List.mem_cons_of_mem d hd2)
    rcases hg : findGraphicsFamily d.families with _ | g <;>
      rcases hp : findPresentFamily d.families with _ | p
    · simpa [selectLoop, hg, hp] using ih (i + 1) hrest
    · simpa [selectLoop, hg, hp] using ih (i + 1) hrest
    · simpa [selectLoop, hg, hp] using ih (i + 1) hrest
    · rcases hd with h1 | h1
      · rw [hg] at h1; exact Option.noConfusion h1
      · rw [hp] at h1; exact Option.noConfusion h1

theorem selectLoop_first (devices : List PhysicalDevice) :
    ∀ (start i : Nat) (d : PhysicalDevice) (g p : Nat),
      devices.get? i = some d →
      (∀ j, j < i → ∀ d2, devices.get? j = some d2 →
        findGraphicsFamily d2.families = none ∨ findPresentFamily d2.families = none) →
      findGraphicsFamily d.families = some g →
      findPresentFamily d.families = some p →
      selectLoop devices start = some
        { deviceIdx := start + i, graphicsQueueFamilyIdx := g,
          presentQueueFamilyIdx := p } := by
  induction devices with
  | nil => intro start i d g p hget _ _ _; simp at hget
  | cons d0 rest ih =>
    intro start i d g p hget hbefore hg hp
    cases i with
    | zero =>
      simp at hget
      subst hget
      simp [selectLoop, hg, hp]
    | succ i0 =>
      have h0 := hbefore 0 (Nat.succ_pos i0) d0 rfl
      have hrec := ih (start + 1) i0 d g p (by simpa using hget)
        (fun j hj d2 hd2 => hbefore (j + 1) (Nat.succ_lt_succ hj) d2 (by simpa using hd2))
        hg hp
      have harith : start + 1 + i0 = start + (i0 + 1) := by omega
      rcases h0 with h1 | h1
      · rcases hp0 : findPresentFamily d0.families with _ | p0 <;>
          · rw [show selectLoop (d0 :: rest) start = selectLoop rest (start + 1) by
              simp [selectLoop, h1, hp0], hrec, harith]
      · rcases hg0 : findGraphicsFamily d0.families with _ | g0
        · rw [show selectLoop (d0 :: rest) start = selectLoop rest (start + 1) by
            simp [selectLoop, hg0, h1], hrec, harith]
        · rw [show selectLoop (d0 :: rest) start = selectLoop rest (start + 1) by
            simp [selectLoop, hg0, h1], hrec, harith]

/-- Counterexample to claim C7 as stated: with an empty device enumeration,
no device has both required families (vacuously), yet selection does not
fail with the no-suitable-device error — the code fails first with its
distinct no-physical-devices error (vulkan.rs lines 200-202). -/
theorem c7_empty_enumeration_counterexample :
    (∀ d, d ∈ ([] : List PhysicalDevice) → findGraphicsFamily d.families = none
      ∨ findPresentFamily d.families = none)
    ∧ selectDevice [] = Except.error DeviceError.noPhysicalDevices
    ∧ selectDevice [] ≠ Except.error DeviceError.noSuitableDevice := by
  refine ⟨fun d hd => absurd hd (List.not_mem_nil d), by decide, by decide⟩

/-- Claim C7 as amended: selection is deterministic first-match — if device
i is the first in enumeration order having both a graphics-capable family
and a present-capable family, it is selected with the first such family
indices (found independently), whatever the later devices look like; if the
enumeration is non-empty and no device has both, selection fails with the
no-suitable-device error.  (With an empty enumeration the failure is the
distinct no-physical-devices error.) -/
theorem c7_first_match_selection :
    (∀ (devices : List PhysicalDevice) (i : Nat) (d : PhysicalDevice) (g p : Nat),
      devices.get? i = some d →
      (∀ j, j < i → ∀ d2, devices.get? j = some d2 →
        findGraphicsFamily d2.families = none ∨ findPresentFamily d2.families = none) →
      findGraphicsFamily d.families = some g →
      findPresentFamily d.families = some p →
      selectDevice devices = Except.ok
        { deviceIdx := i, graphicsQueueFamilyIdx := g, presentQueueFamilyIdx := p })
    ∧ (∀ (devices : List PhysicalDevice), devices ≠ [] →
      (∀ d, d ∈ devices → findGraphicsFamily d.families = none
        ∨ findPresentFamily d.families = none) →
      selectDevice devices = Except.error DeviceError.noSuitableDevice) := by
  constructor
  · intro devices i d g p hget hbefore hg hp
    have hne : devices ≠ [] := by
      intro he
      subst he
      simp at hget
    unfold selectDevice
    rw [if_neg (by simpa [List.isEmpty_iff] using hne),
      selectLoop_first devices 0 i d g p hget hbefore hg hp]
    rw [Nat.zero_add]
  · intro devices hne hall
    unfold selectDevice
    rw [if_neg (by simpa [List.isEmpty_iff] using hne),
      selectLoop_none devices 0 hall]

/-- A device whose only family can present but not draw. -/
def devPresentOnly : PhysicalDevice :=
  { families := [{ graphics := false, present := true }] }

/-- A device whose family 1 draws and family 0 presents. -/
def devBoth : PhysicalDevice :=
  { families := [{ graphics := false, present := true },
                 { graphics := true, present := false }] }

/-- Witness for C7: the first device lacks a graphics family, so the second
is selected, with graphics family 1 and present family 0. -/
theorem c7_first_match_selection_witness :
    selectDevice [devPresentOnly, devBoth] = Except.ok
      { deviceIdx := 1, graphicsQueueFamilyIdx := 1, presentQueueFamilyIdx := 0 } :=
  c7_first_match_selection.1 [devPresentOnly, devBoth] 1 devBoth 1 0 rfl
    (by
      intro j hj d2 hd2
      have hj0 : j = 0 := by omega
      subst hj0
      simp at hd2
      subst hd2
      exact Or.inl (by decide))
    (by decide) (by decide)

/-! ## C9: missing validation layer -/

/-- Claim C9: whenever a requested validation layer is absent from the
enumerated set, instance creation fails naming that layer and produces no
instance handle.  In the code the failure is the panic at vulkan.rs line
106, raised during the verification loop before create_instance is ever
called, with the layer name in the message; the panic aborts before any
handle exists, so there is no partial or degraded startup. -/
theorem c9_layer_unavailable :
    ∀ (env : InstanceEnv) (windowRequired : List String) (p : Platform)
      (available : List String) (layer : String),
      env.entryLoad = Except.ok () →
      env.availableLayers = Except.ok available →
      layer ∈ instanceLayers →
      layer ∉ available →
      instanceNew env windowRequired p
        = PanicOr.panicked (PanicReason.layerUnavailable layer)
      ∧ ∀ h, instanceNew env windowRequired p ≠ PanicOr.ret (Except.ok h) := by
  intro env wr p avail layer hload hlayers hmem hnot
  have hlayer : layer = "VK_LAYER_KHRONOS_validation" := by
    simpa [instanceLayers] using hmem
  subst hlayer
  have hany : avail.any (fun prop => decide (prop = "VK_LAYER_KHRONOS_validation"))
      = false := by
    rw [List.any_eq_false]
    intro a ha
    simp only [decide_eq_true_eq]
    intro hEq
    exact hnot (hEq ▸ ha)
  have hcheck : checkLayers instanceLayers avail
      = PanicOr.panicked (PanicReason.layerUnavailable "VK_LAYER_KHRONOS_validation") := by
    unfold instanceLayers checkLayers
    rw [hany]
    rfl
  have hmain : instanceNew env wr p
      = PanicOr.panicked (PanicReason.layerUnavailable "VK_LAYER_KHRONOS_validation") := by
    simp [instanceNew, hload, hlayers, hcheck]
  exact ⟨hmain, fun h hr => PanicOr.noConfusion (hmain ▸ hr)⟩

/-- A driver environment enumerating no layers at all. -/
def envNoLayers : InstanceEnv :=
  { entryLoad := Except.ok ()
    availableLayers := Except.ok []
    createInstance := fun _ => Except.ok 1 }

/-- Witness for C9: against an empty enumerated layer set, creation panics
naming the requested validation layer. -/
theorem c9_layer_unavailable_witness :
    instanceNew envNoLayers [] Platform.linuxOS
      = PanicOr.panicked (PanicReason.layerUnavailable "VK_LAYER_KHRONOS_validation") :=
  (c9_layer_unavailable envNoLayers [] Platform.linuxOS [] "VK_LAYER_KHRONOS_validation"
    rfl rfl (by decide) (by decide)).1

/-! ## C4, amended -/

/-- The view-destroy trace of a non-panicking outcome; empty for a panic. -/
def retTraceDestroys : PanicOr (SwapTrace × Except DriverErr SwapchainModel) → List Nat
  | PanicOr.panicked _ => []
  | PanicOr.ret (tr, _) => tr.viewsDestroyed

theorem swapchainFinish_no_destroys (env : SwapEnv) (format : SurfaceFormat)
    (extent : Extent2D) (info : SwapchainCreateInfo) :
    (swapchainFinish env format extent info).1.viewsDestroyed = [] := by
  unfold swapchainFinish
  repeat' split
  all_goals rfl

theorem swapchainNew_no_destroys (env : SwapEnv) (g p : Nat) (old : Option Nat) :
    retTraceDestroys (swapchainNew env g p old) = [] := by
  unfold swapchainNew
  repeat' split
  all_goals first
    | rfl
    | exact swapchainFinish_no_destroys env _ _ _

/-- Claim C4 as amended: a per-image view-creation failure aborts the whole
call with the propagated error, but the views already created in that call
are not destroyed — Swapchain::new issues no view-destroy call on any
return path, and the views created before the failing image (exactly those
of the successful prefix) are simply dropped as raw handles, leaking.  The
first part shows every non-panicking run of Swapchain::new destroys no
views; the second characterizes the collect over the images: with every
image before the failing one succeeding, the call returns the error while
having created exactly the views of that prefix. -/
theorem c4_view_failure_leaks :
    (∀ (env : SwapEnv) (g p : Nat) (old : Option Nat) (tr : SwapTrace)
        (res : Except DriverErr SwapchainModel),
      swapchainNew env g p old = PanicOr.ret (tr, res) → tr.viewsDestroyed = [])
    ∧ (∀ (create : Nat → Except DriverErr Nat) (imgsA imgsB : List Nat) (img : Nat)
        (e : DriverErr),
      (∀ i, i ∈ imgsA → ∃ v, create i = Except.ok v) →
      create img = Except.error e →
      collectViews create (imgsA ++ img :: imgsB)
        = (imgsA.filterMap (fun i => (create i).toOption), Except.error e)) := by
  constructor
  · intro env g p old tr res h
    have hh := swapchainNew_no_destroys env g p old
    rw [h] at hh
    exact hh
  -- second part below
  · intro create imgsA imgsB img e hok he
    induction imgsA with
    | nil => simp [collectViews, he]
    | cons i rest ih =>
      obtain ⟨v, hv⟩ := hok i (List.mem_cons_self i rest)
      have ihh := ih (fun j hj => hok j (List.mem_cons_of_mem i hj))
      simp [collectViews, hv, ihh, Except.toOption]

/-- Witness for C4: the trace of the failing run destroys nothing, and the
collect over images 0 (succeeding with view 10) then 1 (failing) returns
the error having created exactly view 10. -/
theorem c4_view_failure_leaks_witness :
    SwapTrace.viewsDestroyed { viewsCreated := [10], viewsDestroyed := [] } = []
    ∧ collectViews envViewFails.createImageViewResult ([0] ++ 1 :: [])
        = ([0].filterMap (fun i => (envViewFails.createImageViewResult i).toOption),
           Except.error (DriverErr.vkError 7)) :=
  ⟨c4_view_failure_leaks.1 envViewFails 0 0 none
      { viewsCreated := [10], viewsDestroyed := [] }
      (Except.error (DriverErr.vkError 7)) (by decide),
   c4_view_failure_leaks.2 envViewFails.createImageViewResult [0] [] 1
      (DriverErr.vkError 7)
      (by
        intro i hi
        simp at hi
        subst hi
        exact ⟨10, rfl⟩)
      rfl⟩

end Vulkan
